import Mathlib

/-!
Verification development for the interactive-stage transform engine
(react-konva-interactive-stage). The definitions below are shallow
embeddings of the TypeScript sources under src/: geometry utilities
(transform-utils.ts), the transform-model setter (useStageTransform.ts),
the resize adapter (useStageResize.ts), the wheel router
(useWheelHandlers in transform-utils.ts), the bounds tracker
(useStageBounds), and the drag controller (useDragHandlers.ts).
Machine numbers are modelled as rationals; where IEEE division by zero
matters (calculateScale on degenerate inputs) a dedicated JSNum model
with signed infinities and NaN is used.
-/

namespace Konva

/-- Dimensions record: width and height of a container or content box. -/
structure Dimensions where
  width : ℚ
  height : ℚ
  deriving DecidableEq

/-- Point record: screen-space translation or world-space coordinate. -/
structure Point where
  x : ℚ
  y : ℚ
  deriving DecidableEq

/-- Bounds record: world-space axis-aligned box with origin and size. -/
structure Bounds where
  x : ℚ
  y : ℚ
  width : ℚ
  height : ℚ
  deriving DecidableEq

/-- Scale record: per-axis scale factors (kept equal by the code). -/
structure Scale where
  x : ℚ
  y : ℚ
  deriving DecidableEq

/-- VisibleRect record: world-space window currently shown. -/
structure VisibleRect where
  left : ℚ
  top : ℚ
  right : ℚ
  bottom : ℚ
  deriving DecidableEq

/-- The width/height pair of a Bounds value, as passed where the source
supplies a Bounds to a parameter typed Dimensions (structural typing). -/
def Bounds.dims (b : Bounds) : Dimensions :=
  ⟨b.width, b.height⟩

/-! ## JS number model for division-degenerate cases

JavaScript `a / b` yields `Infinity`, `-Infinity` or `NaN` when `b = 0`;
`Math.min` propagates NaN and absorbs infinities; `x === 0` is false for
NaN and infinities. `calculateScale` in transform-utils.ts is sensitive
to exactly these semantics when an input dimension is zero, so it gets a
faithful JSNum embedding alongside the rational one used when all
dimensions are positive (where the two agree). -/

/-- A JavaScript number: a finite rational, a signed infinity, or NaN. -/
inductive JSNum where
  | num (q : ℚ)
  | posInf
  | negInf
  | nan
  deriving DecidableEq

/-- JavaScript division `a / b` for finite operands. -/
def jsDiv (a b : ℚ) : JSNum :=
  if b = 0 then
    if a = 0 then JSNum.nan
    else if 0 < a then JSNum.posInf
    else JSNum.negInf
  else JSNum.num (a / b)

/-- JavaScript `Math.min`: NaN-propagating, infinity-absorbing minimum. -/
def jsMin : JSNum → JSNum → JSNum
  | JSNum.nan, _ => JSNum.nan
  | _, JSNum.nan => JSNum.nan
  | JSNum.num a, JSNum.num b => JSNum.num (min a b)
  | JSNum.num a, JSNum.posInf => JSNum.num a
  | JSNum.posInf, JSNum.num b => JSNum.num b
  | JSNum.num _, JSNum.negInf => JSNum.negInf
  | JSNum.negInf, JSNum.num _ => JSNum.negInf
  | JSNum.posInf, JSNum.posInf => JSNum.posInf
  | JSNum.negInf, JSNum.negInf => JSNum.negInf
  | JSNum.posInf, JSNum.negInf => JSNum.negInf
  | JSNum.negInf, JSNum.posInf => JSNum.negInf

/-- JavaScript strict equality test `x === 0` (false for NaN and ±∞). -/
def jsEqZero : JSNum → Bool
  | JSNum.num q => q == 0
  | _ => false

/-- Per-axis scale factors as JS numbers. -/
structure ScaleJS where
  x : JSNum
  y : JSNum
  deriving DecidableEq

/-- calculateScale from transform-utils.ts, with faithful JS division
and Math.min semantics: scaleX = container.width / bounds.width,
scaleY = container.height / bounds.height, scale = min, and the
result is 1 on both axes when scale === 0. -/
def calculateScaleJS (bounds container : Dimensions) : ScaleJS :=
  let scaleX := jsDiv container.width bounds.width
  let scaleY := jsDiv container.height bounds.height
  let scale := jsMin scaleX scaleY
  if jsEqZero scale then ⟨JSNum.num 1, JSNum.num 1⟩ else ⟨scale, scale⟩

/-! ## Geometry utilities (transform-utils.ts), rational embedding

Used by all downstream components; agrees with calculateScaleJS
whenever every dimension involved is positive (no division by zero). -/

/-- calculateScale from transform-utils.ts over rationals:
min of the two axis ratios, replaced by 1 when it equals 0. -/
def calculateScale (bounds container : Dimensions) : Scale :=
  let scaleX := container.width / bounds.width
  let scaleY := container.height / bounds.height
  let scale := min scaleX scaleY
  ⟨if scale = 0 then 1 else scale, if scale = 0 then 1 else scale⟩

/-- calculateInitialPosition from transform-utils.ts: centers content
and accounts for the content's origin offset. -/
def calculateInitialPosition (bounds : Bounds) (container : Dimensions)
    (scale : ℚ) : Point :=
  ⟨(container.width - bounds.width * scale) / 2 - bounds.x * scale,
   (container.height - bounds.height * scale) / 2 - bounds.y * scale⟩

/-- getResetTransform from transform-utils.ts: fit scale plus the
centered initial position at that scale. -/
def getResetTransform (bounds : Bounds) (container : Dimensions) :
    ℚ × Point :=
  let initialScale := calculateScale bounds.dims container
  let scale := initialScale.x
  let position := calculateInitialPosition bounds container scale
  (scale, position)

/-- calculateVisibleRect from transform-utils.ts: the world-space
window shown by a given position, scale and container. -/
def calculateVisibleRect (position : Point) (scale : ℚ)
    (container : Dimensions) : VisibleRect :=
  let worldX := -position.x / scale
  let worldY := -position.y / scale
  let visibleWidth := container.width / scale
  let visibleHeight := container.height / scale
  ⟨worldX, worldY, worldX + visibleWidth, worldY + visibleHeight⟩

/-- The per-axis clamp limits computed inside clampPosition
(transform-utils.ts): the initial fit rectangle scaled by the current
scale gives min and max position on each axis. Returned as
(minPos, maxPos). -/
def clampLimits (scale : ℚ) (container : Dimensions) (bounds : Bounds) :
    Point × Point :=
  let initialScale := calculateScale bounds.dims container
  let initialPos := calculateInitialPosition bounds container initialScale.x
  let initialRect := calculateVisibleRect initialPos initialScale.x container
  let maxPosX := -initialRect.left * scale
  let minPosX := -initialRect.right * scale + container.width
  let maxPosY := -initialRect.top * scale
  let minPosY := -initialRect.bottom * scale + container.height
  (⟨minPosX, minPosY⟩, ⟨maxPosX, maxPosY⟩)

/-- clampPosition from transform-utils.ts: clamp the candidate position
into the per-axis limits derived from the initial fit rectangle. -/
def clampPosition (position : Point) (scale : ℚ) (container : Dimensions)
    (bounds : Bounds) : Point :=
  let limits := clampLimits scale container bounds
  ⟨max limits.1.x (min limits.2.x position.x),
   max limits.1.y (min limits.2.y position.y)⟩

/-! ## Transform model setter (useStageTransform.ts) -/

/-- setPosition / clampAndSetPosition from useStageTransform.ts, for the
calls that supply a new scale: commits the scale verbatim, and commits
the position clamped through clampPosition when the clampPosition
option is enabled, verbatim otherwise. -/
def setPositionModel (clampOpt : Bool) (container : Dimensions)
    (bounds : Bounds) (newPosition : Point) (newScale : ℚ) : ℚ × Point :=
  (newScale,
   if clampOpt then clampPosition newPosition newScale container bounds
   else newPosition)

/-- setPosition from useStageTransform.ts when called without a new
scale (as the wheel pan branch does): setScale is not called, so the
scale state is untouched, and the candidate position is clamped at the
current scale (newScale ?? scale) when the option is enabled. -/
def setPositionKeepScale (clampOpt : Bool) (container : Dimensions)
    (bounds : Bounds) (newPosition : Point) (scale : ℚ) : ℚ × Point :=
  (scale,
   if clampOpt then clampPosition newPosition scale container bounds
   else newPosition)

/-! ## Resize adapter (useStageResize.ts) -/

/-- updateTransform from useStageResize.ts: recompute scale and position
on a container-size change, keeping the world point at the previous
container's center and the zoom level relative to the fit scale. -/
def updateTransform (bounds : Bounds) (prevContainer container : Dimensions)
    (scale : ℚ) (position : Point) : ℚ × Point :=
  let prevCenter : Point :=
    ⟨(-position.x + prevContainer.width / 2) / scale,
     (-position.y + prevContainer.height / 2) / scale⟩
  let prevBaseScale := calculateScale bounds.dims prevContainer
  let newBaseScale := calculateScale bounds.dims container
  let relativeScale := scale / prevBaseScale.x
  let newScale := newBaseScale.x * relativeScale
  let newPosition : Point :=
    ⟨-prevCenter.x * newScale + container.width / 2,
     -prevCenter.y * newScale + container.height / 2⟩
  (newScale, newPosition)

/-- The resize adapter followed by its commit through the transform
model setter (setScale then setPosition(newPosition, newScale)). -/
def resizeCommit (clampOpt : Bool) (bounds : Bounds)
    (prevContainer container : Dimensions) (scale : ℚ) (position : Point) :
    ℚ × Point :=
  let r := updateTransform bounds prevContainer container scale position
  setPositionModel clampOpt container bounds r.2 r.1

/-! ## Zoom controller -/

/-- Modelled from the spec: the zoom controller (useZoomHandlers, whose
source is not in the repository snapshot; only its caller
useStageTransform.ts is). Spec 4.5: factor = 1 + direction *
(delta / zoomSpeed); newScale = clamp(scale * factor, minZoom, maxZoom);
worldAnchor = (pointer - position) / scale; newPosition =
pointer - worldAnchor * newScale. Returns the committed
(newScale, newPosition) pair. -/
def handleZoom (pointer : Point) (direction delta : ℚ) (scale : ℚ)
    (position : Point) (zoomSpeed minZoom maxZoom : ℚ) : ℚ × Point :=
  let factor := 1 + direction * (delta / zoomSpeed)
  let newScale := min maxZoom (max minZoom (scale * factor))
  let worldAnchor : Point :=
    ⟨(pointer.x - position.x) / scale, (pointer.y - position.y) / scale⟩
  let newPosition : Point :=
    ⟨pointer.x - worldAnchor.x * newScale,
     pointer.y - worldAnchor.y * newScale⟩
  (newScale, newPosition)

/-! ## Wheel router (useWheelHandlers in transform-utils.ts) -/

/-- The wheel handler's mutable state: the last-zoom timestamp ref and
the current position prop it closes over. -/
structure WheelState where
  lastZoomTime : ℤ
  position : Point
  deriving DecidableEq

/-- One wheel event as seen by the handler: deltas, modifier keys, the
black-box intentional-scroll classification (lethargy.check), and the
event timestamp (Date.now()). -/
structure WheelEvent where
  dx : ℚ
  dy : ℚ
  ctrlKey : Bool
  metaKey : Bool
  isIntentional : Bool
  now : ℤ
  deriving DecidableEq

/-- What the wheel handler did with an event: dropped it, routed it to
handleZoom with a pointer/direction/magnitude, or panned. -/
inductive WheelAction where
  | ignored
  | zoomed (pointer : Point) (direction delta : ℚ)
  | panned
  deriving DecidableEq

/-- The wheel callback of useWheelHandlers: guards (loading, stage,
pointer), then either the zoom branch (ctrl/meta held: route to
handleZoom, record the event time as last zoom time) or the pan branch
(discard when not classified intentional and within
zoomPanTransitionDelay of the last zoom, else subtract
delta * sqrt(panSpeed) from the position). sqrtPanSpeed stands for the
opaque Math.sqrt(panSpeed) value. -/
def wheelStep (zoomPanTransitionDelay : ℤ) (sqrtPanSpeed : ℚ)
    (loading hasStage : Bool) (pointer : Option Point)
    (st : WheelState) (e : WheelEvent) : WheelState × WheelAction :=
  if loading then (st, WheelAction.ignored)
  else if hasStage = false then (st, WheelAction.ignored)
  else
    match pointer with
    | none => (st, WheelAction.ignored)
    | some ptr =>
      if e.ctrlKey = true ∨ e.metaKey = true then
        let direction : ℚ := if 0 < e.dy then 1 else -1
        ({ st with lastZoomTime := e.now },
         WheelAction.zoomed ptr direction |e.dy|)
      else
        if e.isIntentional = false ∧ e.now - st.lastZoomTime ≤ zoomPanTransitionDelay then
          (st, WheelAction.ignored)
        else
          ({ st with position := ⟨st.position.x - e.dx * sqrtPanSpeed,
                                  st.position.y - e.dy * sqrtPanSpeed⟩ },
           WheelAction.panned)

/-- The keyup listener of useWheelHandlers: releasing Meta or Control
resets the last-zoom timestamp to the current time. -/
def keyUpStep (st : WheelState) (key : String) (now : ℤ) : WheelState :=
  if key = "Meta" ∨ key = "Control" then { st with lastZoomTime := now }
  else st

/-! ## Bounds tracker (useStageBounds) -/

/-- A client rectangle as returned by node.getClientRect(). -/
structure Rect where
  x : ℚ
  y : ℚ
  width : ℚ
  height : ℚ
  deriving DecidableEq

/-- getWorldBox from useStageBounds: convert a node's screen-space
client rectangle to world coordinates under the stage transform. -/
def getWorldBox (box : Rect) (stageScale : ℚ) (stagePos : Point) : Rect :=
  ⟨(box.x - stagePos.x) / stageScale,
   (box.y - stagePos.y) / stageScale,
   box.width / stageScale,
   box.height / stageScale⟩

/-- Number.MAX_VALUE, the fold seeds of the min/max envelope. -/
def maxValue : ℚ := 2 ^ 1024 - 2 ^ 971

/-- The running min/max envelope over the nodes' world boxes. -/
structure Envelope where
  minX : ℚ
  minY : ℚ
  maxX : ℚ
  maxY : ℚ
  deriving DecidableEq

/-- One step of the forEach loop in updateBounds: fold a node's world
box into the envelope. -/
def envelopeStep (stageScale : ℚ) (stagePos : Point) (env : Envelope)
    (box : Rect) : Envelope :=
  let worldBox := getWorldBox box stageScale stagePos
  ⟨min env.minX worldBox.x,
   min env.minY worldBox.y,
   max env.maxX (worldBox.x + worldBox.width),
   max env.maxY (worldBox.y + worldBox.height)⟩

/-- The envelope accumulated over all nodes, seeded with
±Number.MAX_VALUE exactly as in updateBounds. -/
def accumulateEnvelope (stageScale : ℚ) (stagePos : Point)
    (boxes : List Rect) : Envelope :=
  boxes.foldl (envelopeStep stageScale stagePos)
    ⟨maxValue, maxValue, -maxValue, -maxValue⟩

/-- JavaScript Math.round: round half toward positive infinity. -/
def jsRound (q : ℚ) : ℤ := ⌊q + 1 / 2⌋

/-- JavaScript `a || b` applied to the optional manual bounds sizes:
undefined or 0 falls back to the computed value. -/
def jsOrElse (manual : Option ℚ) (fallback : ℚ) : ℚ :=
  match manual with
  | none => fallback
  | some v => if v = 0 then fallback else v

/-- The candidate bounds built by updateBounds: anchored at (0,0), with
width/height the manual configuration when given, otherwise
Math.round(max + min) of the accumulated envelope (as written in the
source). -/
def candidateBounds (stageScale : ℚ) (stagePos : Point) (boxes : List Rect)
    (boundsWidth boundsHeight : Option ℚ) : Bounds :=
  let env := accumulateEnvelope stageScale stagePos boxes
  ⟨0, 0,
   jsOrElse boundsWidth ((jsRound (env.maxX + env.minX) : ℤ) : ℚ),
   jsOrElse boundsHeight ((jsRound (env.maxY + env.minY) : ℤ) : ℚ)⟩

/-- The dead-band test of updateBounds: the candidate differs from the
stored bounds by more than 1 unit on some field. -/
def boundsDiffer (a b : Bounds) : Prop :=
  1 < |a.x - b.x| ∨ 1 < |a.y - b.y| ∨
  1 < |a.width - b.width| ∨ 1 < |a.height - b.height|

instance (a b : Bounds) : Decidable (boundsDiffer a b) := by
  unfold boundsDiffer
  infer_instance

/-- updateBounds from useStageBounds, in the case where the stage and
the interactive layer are available: with zero nodes the stored bounds
are kept; otherwise the candidate replaces the stored bounds exactly
when it passes the dead-band test. -/
def updateBounds (stageScale : ℚ) (stagePos : Point) (boxes : List Rect)
    (boundsWidth boundsHeight : Option ℚ) (stored : Bounds) : Bounds :=
  if boxes.isEmpty then stored
  else
    let newBounds := candidateBounds stageScale stagePos boxes boundsWidth boundsHeight
    if boundsDiffer newBounds stored then newBounds else stored

/-! ## Drag controller (useDragHandlers.ts) -/

/-- handleDragMove in the dragging state with a resolvable pointer:
adds the screen-space pointer delta to the position 1:1 and commits
via setPosition(newPosition, scale) with the unchanged scale. -/
def handleDragMove (position : Point) (scale : ℚ)
    (lastMousePos pointerPos : Point) : ℚ × Point :=
  let dx := pointerPos.x - lastMousePos.x
  let dy := pointerPos.y - lastMousePos.y
  (scale, ⟨position.x + dx, position.y + dy⟩)

/-! ## Helper lemmas -/

/-- With positive dimensions everywhere, the fit scale is positive. -/
lemma calculateScale_pos (bounds container : Dimensions)
    (h1 : 0 < bounds.width) (h2 : 0 < bounds.height)
    (h3 : 0 < container.width) (h4 : 0 < container.height) :
    0 < (calculateScale bounds container).x := by
  have hmin : 0 < min (container.width / bounds.width)
      (container.height / bounds.height) :=
    lt_min (div_pos h3 h1) (div_pos h4 h2)
  have e : (calculateScale bounds container).x
      = if min (container.width / bounds.width)
            (container.height / bounds.height) = 0 then 1
        else min (container.width / bounds.width)
            (container.height / bounds.height) := rfl
  rw [e, if_neg hmin.ne']
  exact hmin

/-- When the scale argument equals the fit scale, the two clamp limits
coincide at the initial position on both axes. -/
lemma clampLimits_at_fit (b : Bounds) (c : Dimensions)
    (hs : (calculateScale b.dims c).x ≠ 0) :
    clampLimits ((calculateScale b.dims c).x) c b =
      (calculateInitialPosition b c ((calculateScale b.dims c).x),
       calculateInitialPosition b c ((calculateScale b.dims c).x)) := by
  set is := (calculateScale b.dims c).x with his
  have e1 : (clampLimits is c b).1.x
      = -(-(calculateInitialPosition b c is).x / is + c.width / is) * is
        + c.width := by
    rw [his]
    rfl
  have e2 : (clampLimits is c b).1.y
      = -(-(calculateInitialPosition b c is).y / is + c.height / is) * is
        + c.height := by
    rw [his]
    rfl
  have e3 : (clampLimits is c b).2.x
      = -(-(calculateInitialPosition b c is).x / is) * is := by
    rw [his]
    rfl
  have e4 : (clampLimits is c b).2.y
      = -(-(calculateInitialPosition b c is).y / is) * is := by
    rw [his]
    rfl
  have hx1 : (clampLimits is c b).1.x = (calculateInitialPosition b c is).x := by
    rw [e1]; field_simp; ring
  have hy1 : (clampLimits is c b).1.y = (calculateInitialPosition b c is).y := by
    rw [e2]; field_simp; ring
  have hx2 : (clampLimits is c b).2.x = (calculateInitialPosition b c is).x := by
    rw [e3]; field_simp
  have hy2 : (clampLimits is c b).2.y = (calculateInitialPosition b c is).y := by
    rw [e4]; field_simp
  have eta : clampLimits is c b
      = (⟨(clampLimits is c b).1.x, (clampLimits is c b).1.y⟩,
         ⟨(clampLimits is c b).2.x, (clampLimits is c b).2.y⟩) := rfl
  rw [eta, hx1, hy1, hx2, hy2]

/-- Clamping into fixed limits twice equals clamping once. -/
lemma clamp_twice (a b x : ℚ) :
    max a (min b (max a (min b x))) = max a (min b x) := by
  rcases le_total (min b x) a with h | h
  · rw [max_eq_left h]
    rcases le_total b a with hba | hab
    · rw [min_eq_left hba, max_eq_left hba]
    · rw [min_eq_right hab, max_self]
  · rw [max_eq_right h, min_eq_right (min_le_left b x), max_eq_right h]

/-! ## Claims -/

/-- Claim C1: the spec says the bounds committed by updateBounds (with no
manual boundsWidth/boundsHeight) have width maxX - minX and height
maxY - minY of the accumulated envelope, i.e. the smallest enclosing box.
The source instead commits Math.round(maxX + minX) and
Math.round(maxY + minY). Evaluated at a single tracked node whose world
box spans [10, 20] on x and [7, 12] on y (stage at identity transform):
the envelope is minX = 10, minY = 7, maxX = 20, maxY = 12, and the code
commits width 30 and height 19, whereas the smallest enclosing box has
width 20 - 10 = 10 and height 12 - 7 = 5. -/
theorem C1_bounds_width_formula :
    accumulateEnvelope 1 ⟨0, 0⟩ [⟨10, 7, 10, 5⟩] = ⟨10, 7, 20, 12⟩ ∧
    updateBounds 1 ⟨0, 0⟩ [⟨10, 7, 10, 5⟩] none none ⟨0, 0, 1, 1⟩
      = ⟨0, 0, 30, 19⟩ ∧
    ((30 : ℚ) ≠ 20 - 10 ∧ (19 : ℚ) ≠ 12 - 7) := by
  refine ⟨?_, ?_, by norm_num, by norm_num⟩
  · norm_num [accumulateEnvelope, envelopeStep, getWorldBox, maxValue,
      min_def, max_def]
  · norm_num [updateBounds, candidateBounds, accumulateEnvelope, envelopeStep,
      getWorldBox, maxValue, jsOrElse, jsRound, boundsDiffer, List.isEmpty,
      min_def, max_def]

/-- Claim C2, counterexample: with minZoom = 1/2 and maxZoom = 3, from
the reachable state scale = 1 (the initial default, inside the range),
a resize of the container from 100 by 100 to 400 by 400 with bounds
100 by 100 commits scale 4, outside [1/2, 3]; the scale committed by
the resize adapter is not clamped even with the clampPosition option
enabled. -/
theorem C2_scale_range_counterexample :
    resizeCommit true ⟨0, 0, 100, 100⟩ ⟨100, 100⟩ ⟨400, 400⟩ 1 ⟨0, 0⟩
      = (4, ⟨0, 0⟩) ∧
    ((1 / 2 : ℚ) ≤ 1 ∧ (1 : ℚ) ≤ 3) ∧ ¬ ((4 : ℚ) ≤ 3) := by
  refine ⟨?_, by norm_num, by norm_num⟩
  norm_num [resizeCommit, updateTransform, setPositionModel, clampPosition,
    clampLimits, calculateScale, calculateInitialPosition, calculateVisibleRect,
    Bounds.dims, min_def, max_def, Prod.ext_iff]

/-- Claim C2, amended: the zoom controller clamps its committed scale
into [minZoom, maxZoom], and the drag and wheel-pan controllers never
change the scale (the drag controller commits with the unchanged current
scale, and the wheel handler without a zoom modifier never routes to the
zoom controller and commits its pan through the setter's no-scale path,
which leaves the scale untouched); but the resize adapter does not
clamp: it commits newScale = fitScale(bounds, newContainer) * (scale /
fitScale(bounds, prevContainer)), which lies in [r * minZoom,
r * maxZoom] for r = fitScale(new) / fitScale(prev) whenever the
pre-resize scale lay in [minZoom, maxZoom], and can therefore leave
[minZoom, maxZoom] whenever r differs from 1. -/
theorem C2_scale_range_amended :
    (∀ (b : Bounds) (pc c : Dimensions) (s : ℚ) (p : Point) (minZ maxZ : ℚ),
      0 < (calculateScale b.dims pc).x →
      0 < (calculateScale b.dims c).x →
      minZ ≤ s → s ≤ maxZ →
      (updateTransform b pc c s p).1
          = ((calculateScale b.dims c).x / (calculateScale b.dims pc).x) * s ∧
      ((calculateScale b.dims c).x / (calculateScale b.dims pc).x) * minZ
          ≤ (updateTransform b pc c s p).1 ∧
      (updateTransform b pc c s p).1
          ≤ ((calculateScale b.dims c).x / (calculateScale b.dims pc).x) * maxZ) ∧
    (∀ (ptr : Point) (direction delta s : ℚ) (p : Point) (zs minZ maxZ : ℚ),
      minZ ≤ maxZ →
      minZ ≤ (handleZoom ptr direction delta s p zs minZ maxZ).1 ∧
      (handleZoom ptr direction delta s p zs minZ maxZ).1 ≤ maxZ) ∧
    (∀ (clampOpt : Bool) (c : Dimensions) (b : Bounds) (pos : Point) (s : ℚ)
        (lastPos ptrPos : Point),
      (handleDragMove pos s lastPos ptrPos).1 = s ∧
      (setPositionModel clampOpt c b (handleDragMove pos s lastPos ptrPos).2
        (handleDragMove pos s lastPos ptrPos).1).1 = s) ∧
    (∀ (delay : ℤ) (sp : ℚ) (loading hasStage : Bool) (pointer : Option Point)
        (st : WheelState) (e : WheelEvent),
      e.ctrlKey = false → e.metaKey = false →
      ∀ (ptr : Point) (d dl : ℚ),
        (wheelStep delay sp loading hasStage pointer st e).2
          ≠ WheelAction.zoomed ptr d dl) ∧
    (∀ (clampOpt : Bool) (c : Dimensions) (b : Bounds) (np : Point) (s : ℚ),
      (setPositionKeepScale clampOpt c b np s).1 = s) := by
  refine ⟨?_, ?_, fun _ _ _ _ _ _ _ => ⟨rfl, rfl⟩, ?_, fun _ _ _ _ _ => rfl⟩
  · intro b pc c s p minZ maxZ hpc hc hlo hhi
    have h1 : (updateTransform b pc c s p).1
        = ((calculateScale b.dims c).x / (calculateScale b.dims pc).x) * s := by
      have e : (updateTransform b pc c s p).1
          = (calculateScale b.dims c).x * (s / (calculateScale b.dims pc).x) := rfl
      rw [e]; ring
    have hr : 0 < (calculateScale b.dims c).x / (calculateScale b.dims pc).x :=
      div_pos hc hpc
    refine ⟨h1, ?_, ?_⟩
    · rw [h1]; exact mul_le_mul_of_nonneg_left hlo hr.le
    · rw [h1]; exact mul_le_mul_of_nonneg_left hhi hr.le
  · intro ptr direction delta s p zs minZ maxZ h
    have e : (handleZoom ptr direction delta s p zs minZ maxZ).1
        = min maxZ (max minZ (s * (1 + direction * (delta / zs)))) := rfl
    rw [e]
    exact ⟨le_min h (le_max_left _ _), min_le_left _ _⟩
  · intro delay sp loading hasStage pointer st e hc hm ptr d dl
    cases loading
    · cases hasStage
      · simp [wheelStep]
      · cases pointer
        · simp [wheelStep]
        · simp [wheelStep, hc, hm]
          split <;> simp
    · simp [wheelStep]

/-- Claim C2, witness for the amended theorem at concrete inputs. -/
theorem C2_scale_range_amended_witness :
    ((updateTransform ⟨0, 0, 100, 100⟩ ⟨100, 100⟩ ⟨400, 400⟩ 1 ⟨0, 0⟩).1
        = ((calculateScale (Bounds.dims ⟨0, 0, 100, 100⟩) ⟨400, 400⟩).x
            / (calculateScale (Bounds.dims ⟨0, 0, 100, 100⟩) ⟨100, 100⟩).x) * 1 ∧
      ((calculateScale (Bounds.dims ⟨0, 0, 100, 100⟩) ⟨400, 400⟩).x
          / (calculateScale (Bounds.dims ⟨0, 0, 100, 100⟩) ⟨100, 100⟩).x) * (1 / 2)
        ≤ (updateTransform ⟨0, 0, 100, 100⟩ ⟨100, 100⟩ ⟨400, 400⟩ 1 ⟨0, 0⟩).1 ∧
      (updateTransform ⟨0, 0, 100, 100⟩ ⟨100, 100⟩ ⟨400, 400⟩ 1 ⟨0, 0⟩).1
        ≤ ((calculateScale (Bounds.dims ⟨0, 0, 100, 100⟩) ⟨400, 400⟩).x
            / (calculateScale (Bounds.dims ⟨0, 0, 100, 100⟩) ⟨100, 100⟩).x) * 3) ∧
    ((1 / 2 : ℚ) ≤ (handleZoom ⟨0, 0⟩ 1 5 1 ⟨0, 0⟩ 5 (1 / 2) 2).1 ∧
      (handleZoom ⟨0, 0⟩ 1 5 1 ⟨0, 0⟩ 5 (1 / 2) 2).1 ≤ 2) ∧
    ((handleDragMove ⟨0, 0⟩ 2 ⟨0, 0⟩ ⟨5, 5⟩).1 = 2 ∧
      (setPositionModel false ⟨100, 100⟩ ⟨0, 0, 100, 100⟩
        (handleDragMove ⟨0, 0⟩ 2 ⟨0, 0⟩ ⟨5, 5⟩).2
        (handleDragMove ⟨0, 0⟩ 2 ⟨0, 0⟩ ⟨5, 5⟩).1).1 = 2) ∧
    ((wheelStep 100 1 false true (some ⟨0, 0⟩) ⟨1000, ⟨0, 0⟩⟩
        ⟨0, 5, false, false, true, 2000⟩).2
      ≠ WheelAction.zoomed ⟨1, 1⟩ 1 5) ∧
    (setPositionKeepScale false ⟨100, 100⟩ ⟨0, 0, 100, 100⟩ ⟨7, 7⟩ 2).1 = 2 :=
  ⟨C2_scale_range_amended.1 ⟨0, 0, 100, 100⟩ ⟨100, 100⟩ ⟨400, 400⟩ 1 ⟨0, 0⟩
      (1 / 2) 3 (by norm_num [calculateScale, Bounds.dims, min_def])
      (by norm_num [calculateScale, Bounds.dims, min_def])
      (by norm_num) (by norm_num),
   C2_scale_range_amended.2.1 ⟨0, 0⟩ 1 5 1 ⟨0, 0⟩ 5 (1 / 2) 2 (by norm_num),
   C2_scale_range_amended.2.2.1 false ⟨100, 100⟩ ⟨0, 0, 100, 100⟩ ⟨0, 0⟩ 2
      ⟨0, 0⟩ ⟨5, 5⟩,
   C2_scale_range_amended.2.2.2.1 100 1 false true (some ⟨0, 0⟩)
      ⟨1000, ⟨0, 0⟩⟩ ⟨0, 5, false, false, true, 2000⟩ rfl rfl ⟨1, 1⟩ 1 5,
   C2_scale_range_amended.2.2.2.2 false ⟨100, 100⟩ ⟨0, 0, 100, 100⟩ ⟨7, 7⟩ 2⟩

/-- Claim C3, counterexample: with the clampPosition option enabled, the
committed position after a resize may be clamped away from the adapter's
computed position, so the world point at the container center is not
preserved for every starting position. Concretely, with bounds
100 by 100, container resized from 100 by 100 to 200 by 200, scale 1 and
position (1000, 1000), the commit clamps to (2, (0, 0)), and the world
point at the new center, 50, differs from the world point that was at
the previous center, -950. -/
theorem C3_resize_center_counterexample :
    resizeCommit true ⟨0, 0, 100, 100⟩ ⟨100, 100⟩ ⟨200, 200⟩ 1 ⟨1000, 1000⟩
      = (2, ⟨0, 0⟩) ∧
    ¬ ((-(0 : ℚ) + 200 / 2) / 2 = ((-1000 : ℚ) + 100 / 2) / 1) := by
  refine ⟨?_, by norm_num⟩
  norm_num [resizeCommit, updateTransform, setPositionModel, clampPosition,
    clampLimits, calculateScale, calculateInitialPosition, calculateVisibleRect,
    Bounds.dims, min_def, max_def, Prod.ext_iff]

/-- Claim C3, amended: when the clampPosition option is disabled (so the
committed position is exactly the adapter's computed one), the world
point at the previous container's center equals the world point at the
new container's center after the resize adapter runs, exactly, on both
axes, for every bounds, container pair, nonzero scale and position
(nonzero fit scales). -/
theorem C3_resize_center_amended (b : Bounds) (pc c : Dimensions) (s : ℚ)
    (p : Point) (hs : s ≠ 0)
    (hpc : (calculateScale b.dims pc).x ≠ 0)
    (hc : (calculateScale b.dims c).x ≠ 0) :
    (-(resizeCommit false b pc c s p).2.x + c.width / 2)
        / (resizeCommit false b pc c s p).1
      = (-p.x + pc.width / 2) / s ∧
    (-(resizeCommit false b pc c s p).2.y + c.height / 2)
        / (resizeCommit false b pc c s p).1
      = (-p.y + pc.height / 2) / s := by
  have hcommit : resizeCommit false b pc c s p = updateTransform b pc c s p := rfl
  have hscale : (updateTransform b pc c s p).1
      = (calculateScale b.dims c).x * (s / (calculateScale b.dims pc).x) := rfl
  have hposx : (updateTransform b pc c s p).2.x
      = -((-p.x + pc.width / 2) / s) * (updateTransform b pc c s p).1
        + c.width / 2 := rfl
  have hposy : (updateTransform b pc c s p).2.y
      = -((-p.y + pc.height / 2) / s) * (updateTransform b pc c s p).1
        + c.height / 2 := rfl
  have hns : (updateTransform b pc c s p).1 ≠ 0 := by
    rw [hscale]
    exact mul_ne_zero hc (div_ne_zero hs hpc)
  rw [hcommit]
  constructor
  · rw [hposx]
    field_simp
    ring
  · rw [hposy]
    field_simp
    ring

/-- Claim C3, witness for the amended theorem: bounds 100 by 100,
container resized from 100 by 100 to 200 by 200, scale 1,
position (10, 20). -/
theorem C3_resize_center_amended_witness :
    (-(resizeCommit false ⟨0, 0, 100, 100⟩ ⟨100, 100⟩ ⟨200, 200⟩ 1 ⟨10, 20⟩).2.x
        + 200 / 2)
        / (resizeCommit false ⟨0, 0, 100, 100⟩ ⟨100, 100⟩ ⟨200, 200⟩ 1 ⟨10, 20⟩).1
      = ((-10 : ℚ) + 100 / 2) / 1 ∧
    (-(resizeCommit false ⟨0, 0, 100, 100⟩ ⟨100, 100⟩ ⟨200, 200⟩ 1 ⟨10, 20⟩).2.y
        + 200 / 2)
        / (resizeCommit false ⟨0, 0, 100, 100⟩ ⟨100, 100⟩ ⟨200, 200⟩ 1 ⟨10, 20⟩).1
      = ((-20 : ℚ) + 100 / 2) / 1 :=
  C3_resize_center_amended ⟨0, 0, 100, 100⟩ ⟨100, 100⟩ ⟨200, 200⟩ 1 ⟨10, 20⟩
    (by norm_num)
    (by norm_num [calculateScale, Bounds.dims, min_def])
    (by norm_num [calculateScale, Bounds.dims, min_def])

/-- Claim C4: the anchor invariant of the zoom controller (modelled from
the spec, since useZoomHandlers is absent from the snapshot): for every
pointer position, direction, delta and positive pre-zoom scale, with
positive minZoom and minZoom at most maxZoom, the world point under the
pointer is unchanged after handleZoom commits its new scale and
position, exactly, on both axes. -/
theorem C4_zoom_anchor (ptr : Point) (direction delta s : ℚ) (p : Point)
    (zs minZ maxZ : ℚ) (hs : 0 < s) (hmin : 0 < minZ) (hmm : minZ ≤ maxZ) :
    (ptr.x - (handleZoom ptr direction delta s p zs minZ maxZ).2.x)
        / (handleZoom ptr direction delta s p zs minZ maxZ).1
      = (ptr.x - p.x) / s ∧
    (ptr.y - (handleZoom ptr direction delta s p zs minZ maxZ).2.y)
        / (handleZoom ptr direction delta s p zs minZ maxZ).1
      = (ptr.y - p.y) / s := by
  have hscale : (handleZoom ptr direction delta s p zs minZ maxZ).1
      = min maxZ (max minZ (s * (1 + direction * (delta / zs)))) := rfl
  have hposx : (handleZoom ptr direction delta s p zs minZ maxZ).2.x
      = ptr.x - (ptr.x - p.x) / s
          * (handleZoom ptr direction delta s p zs minZ maxZ).1 := rfl
  have hposy : (handleZoom ptr direction delta s p zs minZ maxZ).2.y
      = ptr.y - (ptr.y - p.y) / s
          * (handleZoom ptr direction delta s p zs minZ maxZ).1 := rfl
  have hns : (handleZoom ptr direction delta s p zs minZ maxZ).1 ≠ 0 := by
    rw [hscale]
    have h1 : 0 < maxZ := lt_of_lt_of_le hmin hmm
    have h2 : 0 < max minZ (s * (1 + direction * (delta / zs))) :=
      lt_of_lt_of_le hmin (le_max_left _ _)
    exact (lt_min h1 h2).ne'
  constructor
  · rw [hposx]
    field_simp
    ring
  · rw [hposy]
    field_simp
    ring

/-- Claim C4, witness: pointer (100, 100), scale 1, position (0, 0),
direction 1, delta 10, zoomSpeed 5, zoom range [1/2, 3]; the committed
scale is 3 and position (-200, -200), matching the spec's scenario. -/
theorem C4_zoom_anchor_witness :
    ((100 : ℚ) - (handleZoom ⟨100, 100⟩ 1 10 1 ⟨0, 0⟩ 5 (1 / 2) 3).2.x)
        / (handleZoom ⟨100, 100⟩ 1 10 1 ⟨0, 0⟩ 5 (1 / 2) 3).1
      = ((100 : ℚ) - 0) / 1 ∧
    ((100 : ℚ) - (handleZoom ⟨100, 100⟩ 1 10 1 ⟨0, 0⟩ 5 (1 / 2) 3).2.y)
        / (handleZoom ⟨100, 100⟩ 1 10 1 ⟨0, 0⟩ 5 (1 / 2) 3).1
      = ((100 : ℚ) - 0) / 1 :=
  C4_zoom_anchor ⟨100, 100⟩ 1 10 1 ⟨0, 0⟩ 5 (1 / 2) 3
    (by norm_num) (by norm_num) (by norm_num)

/-- Claim C5, counterexample: for bounds width 0 (height 50) and
container 100 by 100, the JS division yields Infinity on the x axis,
Math.min returns the finite y ratio 2, which is not strictly equal to 0,
so calculateScale returns 2 rather than the claimed 1. -/
theorem C5_fitScale_counterexample :
    calculateScaleJS ⟨0, 50⟩ ⟨100, 100⟩ = ⟨JSNum.num 2, JSNum.num 2⟩ ∧
    JSNum.num 2 ≠ JSNum.num 1 := by
  refine ⟨?_, by simp⟩
  norm_num [calculateScaleJS, jsDiv, jsMin, jsEqZero, min_def]

/-- Claim C5, amended: with strictly positive bounds and container
dimensions calculateScale returns the positive finite ratio
min(cw/bw, ch/bh) on both axes (never 0 or NaN); when a container
dimension is 0 while both bounds dimensions are positive it returns 1;
but when a bounds dimension is 0 (the division yielding Infinity) it
returns the other axis's ratio, not 1. -/
theorem C5_fitScale_amended :
    (∀ bw bh cw ch : ℚ, 0 < bw → 0 < bh → 0 < cw → 0 < ch →
      calculateScaleJS ⟨bw, bh⟩ ⟨cw, ch⟩
        = ⟨JSNum.num (min (cw / bw) (ch / bh)),
           JSNum.num (min (cw / bw) (ch / bh))⟩ ∧
      0 < min (cw / bw) (ch / bh)) ∧
    (∀ bw bh cw ch : ℚ, 0 < bw → 0 < bh → 0 ≤ cw → 0 ≤ ch →
      (cw = 0 ∨ ch = 0) →
      calculateScaleJS ⟨bw, bh⟩ ⟨cw, ch⟩ = ⟨JSNum.num 1, JSNum.num 1⟩) ∧
    (∀ bh cw ch : ℚ, 0 < bh → 0 < cw → 0 < ch →
      calculateScaleJS ⟨0, bh⟩ ⟨cw, ch⟩
        = ⟨JSNum.num (ch / bh), JSNum.num (ch / bh)⟩) := by
  refine ⟨?_, ?_, ?_⟩
  · intro bw bh cw ch hbw hbh hcw hch
    have hmin : 0 < min (cw / bw) (ch / bh) :=
      lt_min (div_pos hcw hbw) (div_pos hch hbh)
    refine ⟨?_, hmin⟩
    have hx : jsDiv cw bw = JSNum.num (cw / bw) := by
      unfold jsDiv
      rw [if_neg hbw.ne']
    have hy : jsDiv ch bh = JSNum.num (ch / bh) := by
      unfold jsDiv
      rw [if_neg hbh.ne']
    have e : calculateScaleJS ⟨bw, bh⟩ ⟨cw, ch⟩
        = if jsEqZero (jsMin (jsDiv cw bw) (jsDiv ch bh))
          then ⟨JSNum.num 1, JSNum.num 1⟩
          else ⟨jsMin (jsDiv cw bw) (jsDiv ch bh),
                jsMin (jsDiv cw bw) (jsDiv ch bh)⟩ := rfl
    rw [e, hx, hy]
    simp only [jsMin, jsEqZero, beq_iff_eq]
    rw [if_neg (by simp [hmin.ne'])]
  · intro bw bh cw ch hbw hbh hcw hch hzero
    have e : calculateScaleJS ⟨bw, bh⟩ ⟨cw, ch⟩
        = if jsEqZero (jsMin (jsDiv cw bw) (jsDiv ch bh))
          then ⟨JSNum.num 1, JSNum.num 1⟩
          else ⟨jsMin (jsDiv cw bw) (jsDiv ch bh),
                jsMin (jsDiv cw bw) (jsDiv ch bh)⟩ := rfl
    have hx : jsDiv cw bw = JSNum.num (cw / bw) := by
      unfold jsDiv
      rw [if_neg hbw.ne']
    have hy : jsDiv ch bh = JSNum.num (ch / bh) := by
      unfold jsDiv
      rw [if_neg hbh.ne']
    have hmin0 : min (cw / bw) (ch / bh) = 0 := by
      rcases hzero with h | h
      · rw [h]
        simp only [zero_div]
        exact min_eq_left (div_nonneg hch hbh.le)
      · rw [h]
        simp only [zero_div]
        exact min_eq_right (div_nonneg hcw hbw.le)
    rw [e, hx, hy]
    simp only [jsMin, jsEqZero, beq_iff_eq]
    rw [if_pos (by simp [hmin0])]
  · intro bh cw ch hbh hcw hch
    have e : calculateScaleJS ⟨0, bh⟩ ⟨cw, ch⟩
        = if jsEqZero (jsMin (jsDiv cw 0) (jsDiv ch bh))
          then ⟨JSNum.num 1, JSNum.num 1⟩
          else ⟨jsMin (jsDiv cw 0) (jsDiv ch bh),
                jsMin (jsDiv cw 0) (jsDiv ch bh)⟩ := rfl
    have hx : jsDiv cw 0 = JSNum.posInf := by
      unfold jsDiv
      rw [if_pos rfl, if_neg hcw.ne', if_pos hcw]
    have hy : jsDiv ch bh = JSNum.num (ch / bh) := by
      unfold jsDiv
      rw [if_neg hbh.ne']
    rw [e, hx, hy]
    simp only [jsMin, jsEqZero, beq_iff_eq]
    rw [if_neg (by simp [(div_pos hch hbh).ne'])]

/-- Claim C5, witness for the amended theorem: the spec's fit scenario
(bounds 1000 by 500, container 800 by 400), a zero container width, and
the zero bounds width case. -/
theorem C5_fitScale_amended_witness :
    (calculateScaleJS ⟨1000, 500⟩ ⟨800, 400⟩
        = ⟨JSNum.num (min ((800 : ℚ) / 1000) ((400 : ℚ) / 500)),
           JSNum.num (min ((800 : ℚ) / 1000) ((400 : ℚ) / 500))⟩ ∧
      0 < min ((800 : ℚ) / 1000) ((400 : ℚ) / 500)) ∧
    calculateScaleJS ⟨5, 5⟩ ⟨0, 4⟩ = ⟨JSNum.num 1, JSNum.num 1⟩ ∧
    calculateScaleJS ⟨0, 50⟩ ⟨100, 100⟩
      = ⟨JSNum.num ((100 : ℚ) / 50), JSNum.num ((100 : ℚ) / 50)⟩ :=
  ⟨C5_fitScale_amended.1 1000 500 800 400
      (by norm_num) (by norm_num) (by norm_num) (by norm_num),
   C5_fitScale_amended.2.1 5 5 0 4
      (by norm_num) (by norm_num) le_rfl (by norm_num) (Or.inl rfl),
   C5_fitScale_amended.2.2 50 100 100
      (by norm_num) (by norm_num) (by norm_num)⟩

/-- Claim C6: for positive bounds and container dimensions, at the fit
scale the two clamp limits of clampPosition coincide at the initial
position on each axis, and so clamping any candidate position returns
exactly the initial position: no panning at minimum zoom. -/
theorem C6_no_pan_at_fit (b : Bounds) (c : Dimensions) (p : Point)
    (h1 : 0 < b.width) (h2 : 0 < b.height)
    (h3 : 0 < c.width) (h4 : 0 < c.height) :
    clampLimits ((calculateScale b.dims c).x) c b
      = (calculateInitialPosition b c ((calculateScale b.dims c).x),
         calculateInitialPosition b c ((calculateScale b.dims c).x)) ∧
    clampPosition p ((calculateScale b.dims c).x) c b
      = calculateInitialPosition b c ((calculateScale b.dims c).x) := by
  have hpos : 0 < (calculateScale b.dims c).x :=
    calculateScale_pos b.dims c h1 h2 h3 h4
  have hlim := clampLimits_at_fit b c hpos.ne'
  refine ⟨hlim, ?_⟩
  have ex : (clampPosition p ((calculateScale b.dims c).x) c b).x
      = max (clampLimits ((calculateScale b.dims c).x) c b).1.x
          (min (clampLimits ((calculateScale b.dims c).x) c b).2.x p.x) := rfl
  have ey : (clampPosition p ((calculateScale b.dims c).x) c b).y
      = max (clampLimits ((calculateScale b.dims c).x) c b).1.y
          (min (clampLimits ((calculateScale b.dims c).x) c b).2.y p.y) := rfl
  have eta : clampPosition p ((calculateScale b.dims c).x) c b
      = ⟨(clampPosition p ((calculateScale b.dims c).x) c b).x,
         (clampPosition p ((calculateScale b.dims c).x) c b).y⟩ := rfl
  rw [eta, ex, ey, hlim]
  simp only
  rw [max_eq_left (min_le_left _ _), max_eq_left (min_le_left _ _)]

/-- Claim C6, witness: the spec's fit scenario, bounds (0, 0, 1000, 500)
and container 800 by 400, candidate position (123, -77). -/
theorem C6_no_pan_at_fit_witness :
    clampLimits ((calculateScale (Bounds.dims ⟨0, 0, 1000, 500⟩) ⟨800, 400⟩).x)
        ⟨800, 400⟩ ⟨0, 0, 1000, 500⟩
      = (calculateInitialPosition ⟨0, 0, 1000, 500⟩ ⟨800, 400⟩
           ((calculateScale (Bounds.dims ⟨0, 0, 1000, 500⟩) ⟨800, 400⟩).x),
         calculateInitialPosition ⟨0, 0, 1000, 500⟩ ⟨800, 400⟩
           ((calculateScale (Bounds.dims ⟨0, 0, 1000, 500⟩) ⟨800, 400⟩).x)) ∧
    clampPosition ⟨123, -77⟩
        ((calculateScale (Bounds.dims ⟨0, 0, 1000, 500⟩) ⟨800, 400⟩).x)
        ⟨800, 400⟩ ⟨0, 0, 1000, 500⟩
      = calculateInitialPosition ⟨0, 0, 1000, 500⟩ ⟨800, 400⟩
          ((calculateScale (Bounds.dims ⟨0, 0, 1000, 500⟩) ⟨800, 400⟩).x) :=
  C6_no_pan_at_fit ⟨0, 0, 1000, 500⟩ ⟨800, 400⟩ ⟨123, -77⟩
    (by norm_num) (by norm_num) (by norm_num) (by norm_num)

/-- Claim C7: clampPosition is idempotent: clamping an already-clamped
position returns the same position, for every position, scale, container
and bounds. -/
theorem C7_clamp_idempotent (p : Point) (s : ℚ) (c : Dimensions) (b : Bounds) :
    clampPosition (clampPosition p s c b) s c b = clampPosition p s c b := by
  have e : ∀ q : Point, clampPosition q s c b
      = ⟨max (clampLimits s c b).1.x (min (clampLimits s c b).2.x q.x),
         max (clampLimits s c b).1.y (min (clampLimits s c b).2.y q.y)⟩ :=
    fun q => rfl
  rw [e (clampPosition p s c b), e p]
  dsimp only
  rw [clamp_twice, clamp_twice]

/-- Claim C8: a wheel event with no zoom modifier, not classified as
intentional, arriving within zoomPanTransitionDelay of the recorded
last zoom time, is discarded by the wheel handler: the state (including
the position) is unchanged and no pan or zoom action is taken. -/
theorem C8_wheel_cooldown_discard (zoomPanTransitionDelay : ℤ)
    (sqrtPanSpeed : ℚ) (ptr : Point) (st : WheelState) (e : WheelEvent)
    (hc : e.ctrlKey = false) (hm : e.metaKey = false)
    (hi : e.isIntentional = false)
    (ht : e.now - st.lastZoomTime ≤ zoomPanTransitionDelay) :
    wheelStep zoomPanTransitionDelay sqrtPanSpeed false true (some ptr) st e
      = (st, WheelAction.ignored) := by
  simp [wheelStep, hc, hm, hi, ht]

/-- Claim C8, witness: the spec's scenario 9: a pan wheel event (dy = 5)
50 ms after the last zoom time with zoomPanTransitionDelay 100 and the
classifier returning false is discarded. -/
theorem C8_wheel_cooldown_discard_witness :
    wheelStep 100 1 false true (some ⟨0, 0⟩) ⟨1000, ⟨0, 0⟩⟩
        ⟨0, 5, false, false, false, 1050⟩
      = (⟨1000, ⟨0, 0⟩⟩, WheelAction.ignored) :=
  C8_wheel_cooldown_discard 100 1 ⟨0, 0⟩ ⟨1000, ⟨0, 0⟩⟩
    ⟨0, 5, false, false, false, 1050⟩ rfl rfl rfl (by norm_num)

/-- Claim C9: releasing the Meta or Control key resets the wheel
handler's last-zoom timestamp to the current time, so any wheel event
without modifiers, not classified intentional, arriving within
zoomPanTransitionDelay of the key-up is discarded, even if no zoom was
ever performed. -/
theorem C9_keyup_resets_cooldown (zoomPanTransitionDelay : ℤ)
    (sqrtPanSpeed : ℚ) (ptr : Point) (st : WheelState) (key : String)
    (t : ℤ) (e : WheelEvent)
    (hk : key = "Meta" ∨ key = "Control")
    (hc : e.ctrlKey = false) (hm : e.metaKey = false)
    (hi : e.isIntentional = false)
    (ht : e.now - t ≤ zoomPanTransitionDelay) :
    keyUpStep st key t = { st with lastZoomTime := t } ∧
    wheelStep zoomPanTransitionDelay sqrtPanSpeed false true (some ptr)
        (keyUpStep st key t) e
      = (keyUpStep st key t, WheelAction.ignored) := by
  have hkey : keyUpStep st key t = { st with lastZoomTime := t } := by
    unfold keyUpStep
    rw [if_pos hk]
  refine ⟨hkey, ?_⟩
  rw [hkey]
  simp [wheelStep, hc, hm, hi, ht]

/-- Claim C9, witness: a key-up of Meta at time 1000 with no zoom ever
performed (last zoom time 0), followed by an unintentional modifier-free
wheel event at time 1050 with delay 100: the event is discarded. -/
theorem C9_keyup_resets_cooldown_witness :
    keyUpStep ⟨0, ⟨0, 0⟩⟩ "Meta" 1000 = ⟨1000, ⟨0, 0⟩⟩ ∧
    wheelStep 100 1 false true (some ⟨0, 0⟩) (keyUpStep ⟨0, ⟨0, 0⟩⟩ "Meta" 1000)
        ⟨0, 5, false, false, false, 1050⟩
      = (keyUpStep ⟨0, ⟨0, 0⟩⟩ "Meta" 1000, WheelAction.ignored) :=
  C9_keyup_resets_cooldown 100 1 ⟨0, 0⟩ ⟨0, ⟨0, 0⟩⟩ "Meta" 1000
    ⟨0, 5, false, false, false, 1050⟩ (Or.inl rfl) rfl rfl rfl (by norm_num)

end Konva
